import Mathlib

/-!
Formal model of the organizational-monitoring repository.

The development shallowly embeds the three lambda handlers
(`investigation_monitor`, `simple_routing`, `pattern_detector`) as pure
Lean functions.  Python strings are modelled as `List Char`, timestamps
as natural numbers counting milliseconds since the epoch (the ISO-8601
renderings used by the code are order-isomorphic to this at the
granularity the code manipulates), and every external effect (CloudWatch
Logs retrieval, EventBridge publish, DynamoDB writes and scans, Secrets
Manager, SNS publish, Bedrock invocation) is reified as an explicit
outcome parameter fed to the embedded handler.  Exceptions are modelled
with `Except`.
-/

/-- Python strings are modelled as lists of characters. -/
abbrev Str := List Char

/-- Boolean test that the first list is a prefix of the second. -/
def isPrefixCh : Str → Str → Bool
  | [], _ => true
  | _ :: _, [] => false
  | a :: as, b :: bs => a == b && isPrefixCh as bs

/-- Python `needle in haystack` substring containment. -/
def containsSub (needle : Str) : Str → Bool
  | [] => needle.isEmpty
  | c :: rest => isPrefixCh needle (c :: rest) || containsSub needle rest

/-- Python `str.lower`. -/
def lowerStr (s : Str) : Str := s.map Char.toLower

/-- Python `str.upper`. -/
def upperStr (s : Str) : Str := s.map Char.toUpper

/-- Python `str.split(sep)` for a single-character separator. -/
def splitOnCh (sep : Char) : Str → List Str
  | [] => [[]]
  | c :: rest =>
    let r := splitOnCh sep rest
    if c == sep then [] :: r
    else match r with
      | [] => [[c]]
      | g :: gs => (c :: g) :: gs

/-- Join a list of strings with a separator, as in `sep.join(parts)`. -/
def joinSep (sep : Str) : List Str → Str
  | [] => []
  | [p] => p
  | p :: rest => p ++ sep ++ joinSep sep rest

namespace Monitor

/-! ## Data model of `devops/lambda/investigation_monitor/index.py` -/

/-- Decoded JSON body of one CloudWatch log message, as read by
`get_completed_investigations`; each field the code accesses with
`dict.get` and a default is an `Option`. -/
structure RawMsg where
  status : Str
  investigation_id : Option Str
  severity : Option Str
  root_cause : Option Str
  affected_resources : Option (List Str)
  duration_minutes : Option Nat
  deriving DecidableEq, Repr

/-- One CloudWatch log event: its millisecond timestamp and its message
body (`none` models a message that is not valid JSON and raises
`json.JSONDecodeError`). -/
structure LogEvent where
  timestamp : Nat
  message : Option RawMsg
  deriving DecidableEq, Repr

/-- An investigation record as assembled by `get_completed_investigations`
(the dictionary appended to `investigations`). -/
structure Investigation where
  investigation_id : Option Str
  severity : Str
  root_cause : Str
  affected_resources : List Str
  completed_at : Nat
  duration_minutes : Nat
  deriving DecidableEq, Repr

/-- Configuration read from environment variables by the monitor lambda. -/
structure Config where
  clientName : Str
  clientAccountId : Str
  spaceId : Str
  region : Str
  tags : List (Str × Str)
  deriving DecidableEq, Repr

/-- Outcome of the `filter_log_events` call against CloudWatch Logs:
either the log group is missing (`ResourceNotFoundException`), another
fault is raised, or the filtered events are returned. -/
inductive SourceErr where
  | resourceNotFound
  | other (msg : Str)
  deriving DecidableEq, Repr

/-- Parse one log event exactly as the loop body of
`get_completed_investigations` does: skip undecodable messages, keep
only records whose `status` is `COMPLETED`, apply the `dict.get`
defaults, and take `completed_at` from the log event timestamp. -/
def parseLogEvent (e : LogEvent) : Option Investigation :=
  match e.message with
  | none => none
  | some m =>
    if m.status = "COMPLETED".toList then
      some
        { investigation_id := m.investigation_id
          severity := m.severity.getD "MEDIUM".toList
          root_cause := m.root_cause.getD []
          affected_resources := m.affected_resources.getD []
          completed_at := e.timestamp
          duration_minutes := m.duration_minutes.getD 0 }
    else none

/-- Embedding of `get_completed_investigations`.  `store` is the full
content of the log group; `filter_log_events` with `startTime = since`
returns the events whose timestamp is `≥ since` (the AWS `startTime`
bound is inclusive).  Both the `ResourceNotFoundException` handler and
the generic `except Exception` handler swallow the fault and leave the
accumulated list (empty, since the fault precedes the loop). -/
def get_completed_investigations (since : Nat) (store : List LogEvent)
    (fault : Option SourceErr) : List Investigation :=
  match fault with
  | some _ => []
  | none => (store.filter (fun e => since ≤ e.timestamp)).filterMap parseLogEvent

/-- Embedding of `categorize_root_cause`: lower-case the text, then an
ordered `if`/`elif` chain of case-insensitive substring checks; first
matching category wins, otherwise `unknown`. -/
def categorize_root_cause (root_cause : Str) : Str :=
  let l := lowerStr root_cause
  if ["connection".toList, "timeout".toList, "network".toList].any
      (fun k => containsSub k l) then "network_connectivity".toList
  else if ["memory".toList, "cpu".toList, "disk".toList, "capacity".toList].any
      (fun k => containsSub k l) then "resource_exhaustion".toList
  else if ["permission".toList, "access".toList, "denied".toList,
      "unauthorized".toList].any
      (fun k => containsSub k l) then "permissions_issue".toList
  else if ["deployment".toList, "version".toList, "rollout".toList].any
      (fun k => containsSub k l) then "deployment_issue".toList
  else if ["dependency".toList, "service".toList, "downstream".toList].any
      (fun k => containsSub k l) then "dependency_failure".toList
  else "unknown".toList

/-- Embedding of `extract_resource_types`: keep ARN-shaped strings, split
on colons, require at least six segments, collect the upper-cased third
segment into a set.  The Python `set` is modelled as a first-insertion
deduplicated list. -/
def extract_resource_types (resources : List Str) : List Str :=
  resources.foldl
    (fun acc r =>
      if isPrefixCh "arn:".toList r then
        let parts := splitOnCh ':' r
        if 6 ≤ parts.length then
          let service := upperStr ((parts.get? 2).getD [])
          if acc.contains service then acc else acc ++ [service]
        else acc
      else acc)
    []

/-! ## Redaction (`redact_sensitive_data`)

The three `re.sub` substitutions are modelled by left-to-right scanners
over the character list; each scanner attempts its pattern at every
position and, on a match, emits the replacement and resumes after the
matched characters, which is the non-overlapping leftmost semantics of
`re.sub`. -/

/-- Word character for the `\b` boundary of the IP pattern. -/
def isWordCh (c : Char) : Bool := c.isAlphanum || c == '_'

/-- Length of the leading run of characters satisfying `p`. -/
def runLen (p : Char → Bool) (s : Str) : Nat := (s.takeWhile p).length

/-- Match `\b\d{1,3}\.\d{1,3}\.\d{1,3}\.\d{1,3}\b` at the head of `s`,
where `prev` is the character just before `s` in the original text;
returns the number of characters matched. -/
def matchIPAt (prev : Option Char) (s : Str) : Option Nat :=
  if (prev.map isWordCh).getD false then none
  else
    let n1 := runLen Char.isDigit s
    if n1 < 1 || 3 < n1 then none
    else
      match s.drop n1 with
      | '.' :: s2 =>
        let n2 := runLen Char.isDigit s2
        if n2 < 1 || 3 < n2 then none
        else
          match s2.drop n2 with
          | '.' :: s3 =>
            let n3 := runLen Char.isDigit s3
            if n3 < 1 || 3 < n3 then none
            else
              match s3.drop n3 with
              | '.' :: s4 =>
                let n4 := runLen Char.isDigit s4
                if n4 < 1 || 3 < n4 then none
                else if (s4.drop n4).any (fun _ => true) &&
                    isWordCh (((s4.drop n4).get? 0).getD ' ') then none
                else some (n1 + 1 + n2 + 1 + n3 + 1 + n4)
              | _ => none
          | _ => none
      | _ => none

/-- Scanner for the IP substitution, threading the previous original
character for the word-boundary test; `re.sub` matches against the
original text, so the boundary context after a replacement is the last
matched original character. -/
def ipScanAux : Nat → Option Char → Str → Str
  | 0, _, s => s
  | Nat.succ f, prev, s =>
    match s with
    | [] => []
    | c :: rest =>
      match matchIPAt prev (c :: rest) with
      | some n =>
        "REDACTED_IP".toList ++
          ipScanAux f (((c :: rest).take n).getLast? ) ((c :: rest).drop n)
      | none => c :: ipScanAux f (some c) rest

/-- Generic leftmost-scan substitution for patterns without boundary
context: `m` returns the replacement and the matched length. -/
def scanSub (m : Str → Option (Str × Nat)) : Nat → Str → Str
  | 0, s => s
  | Nat.succ f, s =>
    match s with
    | [] => []
    | c :: rest =>
      match m (c :: rest) with
      | some (rep, n) => rep ++ scanSub m f ((c :: rest).drop n)
      | none => c :: scanSub m f rest

/-- Characters allowed in the local part of the email pattern. -/
def isLocalCh (c : Char) : Bool :=
  c.isAlphanum || c == '.' || c == '_' || c == '%' || c == '+' || c == '-'

/-- Characters allowed in the domain part of the email pattern. -/
def isDomCh (c : Char) : Bool := c.isAlphanum || c == '.' || c == '-'

/-- Within the domain run `d`, find the split realised by the greedy
backtracking of `[a-zA-Z0-9.-]+\.[a-zA-Z]{2,}`: the latest dot preceded
by at least one domain character and followed by at least two letters;
returns the matched length inside `d`. -/
def emailDomSplit (d : Str) : Option Nat :=
  (List.range d.length).foldl
    (fun best i =>
      if 1 ≤ i ∧ (d.get? i).getD ' ' == '.' then
        let m := runLen Char.isAlpha (d.drop (i + 1))
        if 2 ≤ m then some (i + 1 + m) else best
      else best)
    none

/-- Match `[a-zA-Z0-9._%+-]+@[a-zA-Z0-9.-]+\.[a-zA-Z]{2,}` at the head. -/
def matchEmail (s : Str) : Option (Str × Nat) :=
  let nl := runLen isLocalCh s
  if nl < 1 then none
  else
    match s.drop nl with
    | '@' :: s2 =>
      let d := s2.takeWhile isDomCh
      match emailDomSplit d with
      | some nd => some ("REDACTED_EMAIL".toList, nl + 1 + nd)
      | none => none
    | _ => none

/-- Separator class `[\s:=]` of the secret pattern. -/
def isSepCh (c : Char) : Bool := c.isWhitespace || c == ':' || c == '='

/-- Backtracking of `[\s:=]+[^\s]+`: starting from the maximal separator
run, give characters back until a non-whitespace character is available
to start the value; returns (separator length, value length). -/
def secretSepSplit (rest : Str) : Option (Nat × Nat) :=
  let smax := runLen isSepCh rest
  (List.range smax).foldl
    (fun best back =>
      match best with
      | some r => some r
      | none =>
        let k := smax - back
        let v := runLen (fun c => !c.isWhitespace) (rest.drop k)
        if 1 ≤ k ∧ 1 ≤ v then some (k, v) else none)
    none

/-- The alternation `(password|secret|key|token)` in pattern order. -/
def secretWords : List Str :=
  ["password".toList, "secret".toList, "key".toList, "token".toList]

/-- Match `(password|secret|key|token)[\s:=]+[^\s]+` case-insensitively
at the head of `s`; the replacement keeps the original casing of the
captured word, as `\1: REDACTED` does. -/
def matchSecret (s : Str) : Option (Str × Nat) :=
  secretWords.foldl
    (fun acc w =>
      match acc with
      | some r => some r
      | none =>
        if isPrefixCh w (lowerStr s) then
          match secretSepSplit (s.drop w.length) with
          | some (k, v) =>
            some (s.take w.length ++ ": REDACTED".toList, w.length + k + v)
          | none => none
        else none)
    none

/-- Embedding of `redact_sensitive_data`: the three substitutions applied
sequentially, each on the output of the previous one. -/
def redact_sensitive_data (text : Str) : Str :=
  let t1 := ipScanAux text.length none text
  let t2 := scanSub matchEmail t1.length t1
  scanSub matchSecret t2.length t2

end Monitor

namespace Monitor

/-! ## Event formatting (`format_investigation_event`) and serialization

`json.dumps` with its default separators is modelled by an explicit
serialization of the event dictionary in insertion order; the byte
length of the UTF-8 encoding is modelled by the character count (the
payloads the code builds are ASCII). -/

deriving instance DecidableEq for Except

/-- Escape of one character inside a JSON string literal. -/
def escChar (c : Char) : Str :=
  if c == '"' || c == '\\' then ['\\', c] else [c]

/-- Serialize a JSON string literal. -/
def jsonStr (s : Str) : Str := '"' :: (s.flatMap escChar) ++ ['"']

/-- Serialize a natural number. -/
def jsonNat (n : Nat) : Str := Nat.toDigits 10 n

/-- Serialize `None` or a string, as `json.dumps` renders them. -/
def jsonStrOpt : Option Str → Str
  | none => "null".toList
  | some s => jsonStr s

/-- Serialize a JSON array of pre-serialized values. -/
def jsonArr (vals : List Str) : Str :=
  '[' :: joinSep ", ".toList vals ++ [']']

/-- Serialize a JSON object of pre-serialized values, in insertion
order, with the default `json.dumps` separators. -/
def jsonObj (fields : List (Str × Str)) : Str :=
  '\x7b' :: joinSep ", ".toList
    (fields.map fun p => jsonStr p.1 ++ ": ".toList ++ p.2) ++ ['\x7d']

/-- Embedding of `generate_devops_agent_link`. -/
def generate_devops_agent_link (cfg : Config) (invId : Str) : Str :=
  "https://devops-agent.console.aws.amazon.com/spaces/".toList ++ cfg.spaceId
    ++ "/investigations/".toList ++ invId ++ "?region=".toList ++ cfg.region

/-- Embedding of `generate_cloudwatch_logs_link`. -/
def generate_cloudwatch_logs_link (cfg : Config) : Str :=
  "https://console.aws.amazon.com/cloudwatch/home?region=".toList ++ cfg.region
    ++ "#logsV2:log-groups/log-group/$252Faws$252Fdevops-agent$252Finvestigations".toList

/-- The formatted investigation summary event, with the fields the code
puts into the `event` dictionary (constant-valued fields appear in the
serializer). -/
structure MEvent where
  investigation_id : Option Str
  client_account_id : Str
  client_name : Str
  timestamp : Nat
  severity : Str
  sum_affected_resources : List Str
  sum_resource_types : List Str
  sum_duration_minutes : Nat
  sum_root_cause_category : Str
  sum_root_cause_brief : Str
  links_devops : Str
  links_cloudwatch : Str
  links_affected_application : Str
  tags : List (Str × Str)
  deriving DecidableEq, Repr

/-- Build the event dictionary of `format_investigation_event` (the part
before the size validation). -/
def build_event (cfg : Config) (inv : Investigation) : MEvent :=
  { investigation_id := inv.investigation_id
    client_account_id := cfg.clientAccountId
    client_name := cfg.clientName
    timestamp := inv.completed_at
    severity := inv.severity
    sum_affected_resources := inv.affected_resources.take 5
    sum_resource_types := extract_resource_types inv.affected_resources
    sum_duration_minutes := inv.duration_minutes
    sum_root_cause_category := categorize_root_cause inv.root_cause
    sum_root_cause_brief := redact_sensitive_data (inv.root_cause.take 200)
    links_devops :=
      generate_devops_agent_link cfg ((inv.investigation_id).getD "None".toList)
    links_cloudwatch := generate_cloudwatch_logs_link cfg
    links_affected_application :=
      ((cfg.tags.lookup "application_url".toList).getD [])
    tags := cfg.tags }

/-- Serialization of the `summary` sub-dictionary. -/
def serializeSummary (e : MEvent) : Str :=
  jsonObj
    [ ("affected_resources".toList, jsonArr (e.sum_affected_resources.map jsonStr)),
      ("resource_types".toList, jsonArr (e.sum_resource_types.map jsonStr)),
      ("duration_minutes".toList, jsonNat e.sum_duration_minutes),
      ("root_cause_category".toList, jsonStr e.sum_root_cause_category),
      ("root_cause_brief".toList, jsonStr e.sum_root_cause_brief),
      ("mitigation_status".toList, jsonStr "plan_generated".toList) ]

/-- Serialization of the `links` sub-dictionary. -/
def serializeLinks (e : MEvent) : Str :=
  jsonObj
    [ ("devops_agent_investigation".toList, jsonStr e.links_devops),
      ("cloudwatch_logs".toList, jsonStr e.links_cloudwatch),
      ("affected_application".toList, jsonStr e.links_affected_application) ]

/-- Serialization of the full event dictionary, `json.dumps(event)`. -/
def serializeEvent (e : MEvent) : Str :=
  jsonObj
    [ ("event_type".toList, jsonStr "investigation_completed".toList),
      ("investigation_id".toList, jsonStrOpt e.investigation_id),
      ("client_account_id".toList, jsonStr e.client_account_id),
      ("client_name".toList, jsonStr e.client_name),
      ("timestamp".toList, jsonStr (jsonNat e.timestamp)),
      ("severity".toList, jsonStr e.severity),
      ("status".toList, jsonStr "ROOT_CAUSE_FOUND".toList),
      ("summary".toList, serializeSummary e),
      ("links".toList, serializeLinks e),
      ("tags".toList, jsonObj (e.tags.map fun p => (p.1, jsonStr p.2))) ]

/-- Serialized size of an event, `len(json.dumps(event).encode('utf-8'))`. -/
def eventSize (e : MEvent) : Nat := (serializeEvent e).length

/-- Embedding of `format_investigation_event`: build the event, measure
its serialization, raise `ValueError` above 256 000 bytes; the returned
Boolean reifies whether the 200 000-byte warning was printed. -/
def format_investigation_event (cfg : Config) (inv : Investigation) :
    Except Str (MEvent × Bool) :=
  let ev := build_event cfg inv
  let size := eventSize ev
  if 256000 < size then
    .error "Event size exceeds EventBridge limit".toList
  else .ok (ev, decide (200000 < size))

/-! ## Publishing and the poll-cycle handler -/

/-- Outcome of the `events.put_events` call: a transport-level exception,
or a response carrying `FailedEntryCount`. -/
abbrev BusResult := Except Str Nat

/-- Embedding of `send_to_central_eventbridge`: a response with a
positive `FailedEntryCount` raises; a transport exception propagates. -/
def send_to_central_eventbridge (r : BusResult) : Except Str Unit :=
  match r with
  | .error e => .error e
  | .ok failedCount => if 0 < failedCount then
      .error "Failed to send events".toList
    else .ok ()

/-- One iteration of the handler loop body: format, then publish; either
failure is the exception caught by the per-investigation `except`. -/
def process_investigation (cfg : Config) (busR : BusResult)
    (inv : Investigation) : Except Str MEvent :=
  match format_investigation_event cfg inv with
  | .error e => .error e
  | .ok (ev, _) =>
    match send_to_central_eventbridge busR with
    | .error e => .error e
    | .ok _ => .ok ev

/-- The handler loop over the polled investigations; `bus i` is the
outcome of the publish attempt for position `i`. -/
def process_list (cfg : Config) (bus : Nat → BusResult) :
    Nat → List Investigation → List (Except Str MEvent)
  | _, [] => []
  | i, inv :: rest =>
    process_investigation cfg (bus i) inv :: process_list cfg bus (i + 1) rest

/-- Python `max(inv['completed_at'] for inv in investigations)` (over a
non-empty list; the fold base is absorbed). -/
def latestTime (invs : List Investigation) : Nat :=
  invs.foldl (fun a i => max a i.completed_at) 0

/-- Observable result of one run of the monitor `handler`: the optional
watermark write, the count of forwarded investigations, the events whose
publish succeeded, the per-investigation outcomes, and the returned
response. -/
structure MResult where
  watermarkWrite : Option Nat
  processedCount : Nat
  sent : List MEvent
  outcomes : List (Except Str MEvent)
  response : Except Str Str
  deriving DecidableEq, Repr

/-- Embedding of the monitor `handler`: read the watermark (defaulting
when the parameter is absent), poll, return early on an empty poll,
otherwise process each investigation with per-item exception isolation
and finally overwrite the watermark with the maximum `completed_at` over
all polled investigations. -/
def monitor_handler (cfg : Config) (stateParam : Option Nat)
    (defaultSince : Nat) (store : List LogEvent) (fault : Option SourceErr)
    (bus : Nat → BusResult) : MResult :=
  let since := stateParam.getD defaultSince
  let invs := get_completed_investigations since store fault
  match invs with
  | [] =>
    { watermarkWrite := none, processedCount := 0, sent := [], outcomes := [],
      response := .ok "No new investigations".toList }
  | _ :: _ =>
    let outcomes := process_list cfg bus 0 invs
    let sent := outcomes.filterMap Except.toOption
    { watermarkWrite := some (latestTime invs), processedCount := sent.length,
      sent := sent, outcomes := outcomes,
      response := .ok "Processed".toList }

end Monitor

namespace Monitor

/-! ## Concrete fixtures used by witnesses and counterexamples -/

/-- A small client configuration fixture. -/
def cfgW : Config :=
  { clientName := "acme".toList, clientAccountId := "111122223333".toList,
    spaceId := "sp1".toList, region := "us-east-1".toList, tags := [] }

/-- A completed-investigation log message fixture. -/
def msgW : RawMsg :=
  { status := "COMPLETED".toList, investigation_id := some "inv-1".toList,
    severity := some "HIGH".toList, root_cause := some "timeout".toList,
    affected_resources := some [], duration_minutes := some 7 }

/-- A log group holding one completed investigation at time 2000. -/
def storeW : List LogEvent := [{ timestamp := 2000, message := some msgW }]

/-- The investigation record the poll builds from `storeW`. -/
def invW : Investigation :=
  { investigation_id := some "inv-1".toList, severity := "HIGH".toList,
    root_cause := "timeout".toList, affected_resources := [],
    completed_at := 2000, duration_minutes := 7 }

/-- Publish oracle whose responses report no failed entries. -/
def busOk : Nat → BusResult := fun _ => .ok 0

/-- Publish oracle whose responses report one failed entry, so every
publish raises. -/
def busFail : Nat → BusResult := fun _ => .ok 1

/-! ## Multi-cycle state evolution -/

/-- External inputs of one poll cycle. -/
structure CycleInput where
  store : List LogEvent
  fault : Option SourceErr
  bus : Nat → BusResult

/-- Run a sequence of poll cycles, threading the stored watermark: each
cycle reads the current value and the store keeps the written value, or
the old one when the cycle wrote nothing. -/
def runCycles (cfg : Config) (defaultSince : Nat) : Nat → List CycleInput → Nat
  | s, [] => s
  | s, c :: rest =>
    runCycles cfg defaultSince
      (((monitor_handler cfg (some s) defaultSince c.store c.fault
          c.bus).watermarkWrite).getD s) rest


/-- The ordered (category, keyword list) table that the specification
describes for root-cause categorization; `spec_categorize` evaluates it
by first match in fixed priority order, defaulting to `unknown`. -/
def specCategoryTable : List (Str × List Str) :=
  [ ("network_connectivity".toList,
      ["connection".toList, "timeout".toList, "network".toList]),
    ("resource_exhaustion".toList,
      ["memory".toList, "cpu".toList, "disk".toList, "capacity".toList]),
    ("permissions_issue".toList,
      ["permission".toList, "access".toList, "denied".toList,
        "unauthorized".toList]),
    ("deployment_issue".toList,
      ["deployment".toList, "version".toList, "rollout".toList]),
    ("dependency_failure".toList,
      ["dependency".toList, "service".toList, "downstream".toList]) ]

/-- Data-driven first-match categorization, written from the spec words:
case-insensitive substring search over the ordered fixed table, first
category whose keyword list matches wins, no match gives `unknown`. -/
def spec_categorize (text : Str) : Str :=
  match specCategoryTable.find?
      (fun p => p.2.any (fun k => containsSub k (lowerStr text))) with
  | some p => p.1
  | none => "unknown".toList

end Monitor

namespace Routing

/-! ## Data model of `devops/lambda/simple_routing/index.py` -/

/-- The `detail` dictionary of the inbound EventBridge event.  Fields the
handler reads with `dict.get` are `Option`s; the remaining fields are the
ones `store_investigation` and the notifiers access with `[...]` and are
modelled as present (a well-formed summary event). -/
structure RDetail where
  investigation_id : Option Str
  severity : Option Str
  client_name : Option Str
  timestamp : Str
  client_account_id : Str
  status : Str
  summary_root_cause_brief : Str
  summary_resource_types : List Str
  summary_duration_minutes : Nat
  links_devops : Str
  links_cloudwatch : Str
  tags : List (Str × Str)
  deriving DecidableEq, Repr

/-- Environment configuration of the routing lambda: the two secret
names, which default to the empty string when the variable is unset. -/
structure RConfig where
  pagerdutySecretName : Str
  jiraSecretName : Str
  deriving DecidableEq, Repr

/-- Embedding of `store_investigation`: building the item accesses
`investigation['severity']` and `investigation['client_name']` directly
(a `KeyError` raises), then `put_item` runs with the oracle outcome. -/
def store_investigation (d : RDetail) (storeO : Except Str Unit) :
    Except Str Unit :=
  match d.severity, d.client_name with
  | some _, some _ => storeO
  | _, _ => .error "KeyError".toList

/-- Embedding of `page_engineer`: the whole body runs under
`try/except ... pass`, so a failure is only logged; the returned value
reifies the swallowed failure, if any. -/
def page_engineer (pageO : Except Str Unit) : Option Str :=
  match pageO with
  | .ok _ => none
  | .error e => some e

/-- Embedding of `create_jira_ticket`: same swallow-all structure as
`page_engineer`. -/
def create_jira_ticket (jiraO : Except Str Unit) : Option Str :=
  match jiraO with
  | .ok _ => none
  | .error e => some e

/-- Embedding of `send_sns_alert`: the message is built (a pure
computation here) and `sns_client.publish` runs with the oracle outcome;
there is no exception handler, so a failure propagates. -/
def send_sns_alert (snsO : Except Str Unit) : Except Str Unit := snsO

/-- Observable result of one run of the routing `handler`: which side
effects were attempted, the swallowed channel failures, the
`actions_taken` list as built before any raise, and the outcome. -/
structure RResult where
  storeAttempted : Bool
  pageAttempted : Bool
  jiraAttempted : Bool
  snsAttempted : Bool
  pageFailed : Option Str
  jiraFailed : Option Str
  actions : List Str
  outcome : Except Str (List Str)
  deriving DecidableEq, Repr

/-- Embedding of the routing `handler`: validate `investigation_id`
(Python truthiness, so a missing or empty id raises), persist (fatal on
failure), then route by severity: for CRITICAL/HIGH page and ticket only
when the respective secret name is non-empty (each best-effort) and
always send the SNS alert (not guarded, so its failure propagates); for
MEDIUM ticket only when the Jira secret name is non-empty; otherwise no
notification. -/
def routing_handler (cfg : RConfig) (d : RDetail)
    (storeO pageO jiraO snsO : Except Str Unit) : RResult :=
  let severity := d.severity.getD "MEDIUM".toList
  match d.investigation_id with
  | none =>
    { storeAttempted := false, pageAttempted := false, jiraAttempted := false,
      snsAttempted := false, pageFailed := none, jiraFailed := none,
      actions := [], outcome := .error "No investigation_id in event".toList }
  | some iid =>
    if iid.isEmpty then
      { storeAttempted := false, pageAttempted := false, jiraAttempted := false,
        snsAttempted := false, pageFailed := none, jiraFailed := none,
        actions := [], outcome := .error "No investigation_id in event".toList }
    else
      match store_investigation d storeO with
      | .error e =>
        { storeAttempted := true, pageAttempted := false,
          jiraAttempted := false, snsAttempted := false, pageFailed := none,
          jiraFailed := none, actions := [], outcome := .error e }
      | .ok _ =>
        if severity = "CRITICAL".toList ∨ severity = "HIGH".toList then
          let doPage := !cfg.pagerdutySecretName.isEmpty
          let doJira := !cfg.jiraSecretName.isEmpty
          let a1 : List Str := if doPage then ["paged_engineer".toList] else []
          let a2 : List Str := if doJira then ["created_ticket".toList] else []
          let pageF : Option Str := if doPage then page_engineer pageO else none
          let jiraF : Option Str := if doJira then create_jira_ticket jiraO else none
          match send_sns_alert snsO with
          | .error e =>
            { storeAttempted := true, pageAttempted := doPage,
              jiraAttempted := doJira, snsAttempted := true,
              pageFailed := pageF, jiraFailed := jiraF, actions := a1 ++ a2,
              outcome := .error e }
          | .ok _ =>
            { storeAttempted := true, pageAttempted := doPage,
              jiraAttempted := doJira, snsAttempted := true,
              pageFailed := pageF, jiraFailed := jiraF,
              actions := a1 ++ a2 ++ ["sent_alert".toList],
              outcome := .ok (a1 ++ a2 ++ ["sent_alert".toList]) }
        else if severity = "MEDIUM".toList then
          let doJira := !cfg.jiraSecretName.isEmpty
          let a2 : List Str := if doJira then ["created_ticket".toList] else []
          let jiraF : Option Str := if doJira then create_jira_ticket jiraO else none
          { storeAttempted := true, pageAttempted := false,
            jiraAttempted := doJira, snsAttempted := false, pageFailed := none,
            jiraFailed := jiraF, actions := a2, outcome := .ok a2 }
        else
          { storeAttempted := true, pageAttempted := false,
            jiraAttempted := false, snsAttempted := false, pageFailed := none,
            jiraFailed := none, actions := [], outcome := .ok [] }

/-- A well-formed CRITICAL detail fixture. -/
def dW : RDetail :=
  { investigation_id := some "inv-1".toList, severity := some "CRITICAL".toList,
    client_name := some "acme".toList, timestamp := "1000".toList,
    client_account_id := "111122223333".toList,
    status := "ROOT_CAUSE_FOUND".toList,
    summary_root_cause_brief := "timeout".toList,
    summary_resource_types := ["LAMBDA".toList],
    summary_duration_minutes := 7, links_devops := "d".toList,
    links_cloudwatch := "c".toList, tags := [] }

/-- Routing configuration with both secret names set. -/
def rcfgW : RConfig :=
  { pagerdutySecretName := "pd-secret".toList,
    jiraSecretName := "jira-secret".toList }

/-- Routing configuration with both secret names empty (unset). -/
def rcfgNone : RConfig := { pagerdutySecretName := [], jiraSecretName := [] }

end Routing

namespace Pattern

/-! ## Data model of `devops/lambda/pattern_detector/index.py` -/

/-- A stored investigation item as read back from the investigations
table: the fields `build_analysis_prompt` accesses. -/
structure PRecord where
  client_name : Str
  severity : Str
  root_cause_category : Str
  resource_types : List Str
  timestamp : Nat
  deriving DecidableEq, Repr

/-- Embedding of `query_recent_investigations`: the table scan with
filter `timestamp >= cutoff`, where `cutoff` is `now - 24h`. -/
def query_recent_investigations (records : List PRecord) (cutoff : Nat) :
    List PRecord :=
  records.filter (fun r => cutoff ≤ r.timestamp)

/-! ## A model of `json.loads`

The classifier response is parsed with a small recursive-descent JSON
parser over the character list (fuel-bounded); any text it cannot parse
models a `json.JSONDecodeError`. -/

/-- JSON values. -/
inductive JVal where
  | null
  | bool (b : Bool)
  | num (n : Int)
  | str (s : Str)
  | arr (l : List JVal)
  | obj (fields : List (Str × JVal))

/-- Drop leading whitespace. -/
def skipWs (s : Str) : Str := s.dropWhile (fun c => c.isWhitespace)

/-- Parse the body of a JSON string literal after its opening quote,
handling the common escapes. -/
def parseStringBody (fuel : Nat) (s : Str) : Option (Str × Str) :=
  match fuel, s with
  | 0, _ => none
  | _, [] => none
  | Nat.succ f, c :: rest =>
    if c == '"' then some ([], rest)
    else if c == '\\' then
      match rest with
      | [] => none
      | e :: rest2 =>
        let d := if e == 'n' then '\n'
          else if e == 't' then '\t'
          else if e == 'r' then '\r' else e
        match parseStringBody f rest2 with
        | some (b, r) => some (d :: b, r)
        | none => none
    else
      match parseStringBody f rest with
      | some (b, r) => some (c :: b, r)
      | none => none

/-- Parse an integer numeral (optionally signed). -/
def parseNum (s : Str) : Option (JVal × Str) :=
  match s with
  | '-' :: rest =>
    let ds := rest.takeWhile Char.isDigit
    if ds.isEmpty then none
    else some (.num (-(Int.ofNat (ds.foldl (fun a c => a * 10 + (c.toNat - 48)) 0))),
      rest.drop ds.length)
  | _ =>
    let ds := s.takeWhile Char.isDigit
    if ds.isEmpty then none
    else some (.num (Int.ofNat (ds.foldl (fun a c => a * 10 + (c.toNat - 48)) 0)),
      s.drop ds.length)

mutual

/-- Parse one JSON value. -/
def parseVal (fuel : Nat) (s : Str) : Option (JVal × Str) :=
  match fuel with
  | 0 => none
  | Nat.succ f =>
    match skipWs s with
    | [] => none
    | c :: rest =>
      if c == '"' then
        match parseStringBody (rest.length + 1) rest with
        | some (b, r) => some (.str b, r)
        | none => none
      else if c == 't' then
        if isPrefixCh "rue".toList rest then some (.bool true, rest.drop 3)
        else none
      else if c == 'f' then
        if isPrefixCh "alse".toList rest then some (.bool false, rest.drop 4)
        else none
      else if c == 'n' then
        if isPrefixCh "ull".toList rest then some (.null, rest.drop 3)
        else none
      else if c == '[' then
        match parseArrItems f rest with
        | some (l, r) => some (.arr l, r)
        | none => none
      else if c == '\x7b' then
        match parseObjItems f rest with
        | some (fs, r) => some (.obj fs, r)
        | none => none
      else parseNum (c :: rest)

/-- Parse array items up to the closing bracket. -/
def parseArrItems (fuel : Nat) (s : Str) : Option (List JVal × Str) :=
  match fuel with
  | 0 => none
  | Nat.succ f =>
    match skipWs s with
    | ']' :: r => some ([], r)
    | s0 =>
      match parseVal f s0 with
      | none => none
      | some (v, r1) =>
        match skipWs r1 with
        | ',' :: r3 =>
          match parseArrItems f r3 with
          | some (l, r) => some (v :: l, r)
          | none => none
        | ']' :: r3 => some ([v], r3)
        | _ => none

/-- Parse object members up to the closing brace. -/
def parseObjItems (fuel : Nat) (s : Str) : Option (List (Str × JVal) × Str) :=
  match fuel with
  | 0 => none
  | Nat.succ f =>
    match skipWs s with
    | '\x7d' :: r => some ([], r)
    | '"' :: r0 =>
      match parseStringBody (r0.length + 1) r0 with
      | none => none
      | some (k, r1) =>
        match skipWs r1 with
        | ':' :: r2 =>
          match parseVal f r2 with
          | none => none
          | some (v, r3) =>
            match skipWs r3 with
            | ',' :: r4 =>
              match parseObjItems f r4 with
              | some (fs, r) => some ((k, v) :: fs, r)
              | none => none
            | '\x7d' :: r4 => some ([(k, v)], r4)
            | _ => none
        | _ => none
    | _ => none

end

/-- Embedding of `json.loads`: parse one value and require only trailing
whitespace after it. -/
def json_loads (s : Str) : Option JVal :=
  match parseVal (4 * (s.length + 1)) s with
  | some (v, rest) => if (skipWs rest).isEmpty then some v else none
  | none => none

end Pattern

namespace Pattern

/-! ## Bedrock response parsing and the analysis path -/

/-- Python `str.strip()`. -/
def stripStr (s : Str) : Str :=
  ((s.dropWhile (fun c => c.isWhitespace)).reverse.dropWhile
    (fun c => c.isWhitespace)).reverse

/-- Python `str.endswith` for a character-list suffix. -/
def endsWithCh (suffix : Str) (s : Str) : Bool :=
  isPrefixCh suffix.reverse s.reverse

/-- The cleaning performed by `parse_bedrock_response` before
`json.loads`: strip, remove a leading markdown fence `\x60\x60\x60json`
(seven characters), remove a trailing fence, strip again. -/
def cleanResponse (response_text : Str) : Str :=
  let cleaned := stripStr response_text
  let cleaned := if isPrefixCh "```json".toList cleaned then cleaned.drop 7
    else cleaned
  let cleaned := if endsWithCh "```".toList cleaned then
      cleaned.take (cleaned.length - 3)
    else cleaned
  stripStr cleaned

/-- The error dictionary returned when the response cannot be parsed. -/
def parseErrorDict : JVal :=
  .obj [("patterns_detected".toList, .bool false),
    ("error".toList, .str "Failed to parse Bedrock response".toList)]

/-- Embedding of `parse_bedrock_response`: strip markdown fences, then
`json.loads`; a `JSONDecodeError` is caught and converted into the
error dictionary with `patterns_detected` false. -/
def parse_bedrock_response (response_text : Str) : JVal :=
  match json_loads (cleanResponse response_text) with
  | some v => v
  | none => parseErrorDict

/-- One stored investigation as summarized into the prompt (the
dictionary appended to `investigations_summary`). -/
def summarizeRecord (r : PRecord) : Str :=
  Monitor.jsonObj
    [ ("client".toList, Monitor.jsonStr r.client_name),
      ("severity".toList, Monitor.jsonStr r.severity),
      ("root_cause_category".toList, Monitor.jsonStr r.root_cause_category),
      ("resource_types".toList,
        Monitor.jsonArr (r.resource_types.map Monitor.jsonStr)),
      ("timestamp".toList, Monitor.jsonStr (Monitor.jsonNat r.timestamp)) ]

/-- Embedding of `build_analysis_prompt`: the fixed instruction text
around the serialized summary of the recent investigations (the
`indent=2` pretty-printing of `json.dumps` is modelled by the compact
rendering). -/
def build_analysis_prompt (investigations : List PRecord) : Str :=
  "You are a senior cloud engineer analyzing incidents across multiple clients.\n\nRecent investigations (last 24 hours):\n".toList
    ++ Monitor.jsonArr (investigations.map summarizeRecord)
    ++ "\n\nTasks:\n1. Identify if multiple clients are affected by the same underlying issue\n2. Detect common patterns in root causes\n3. Assess if this indicates a broader AWS service issue or regional problem\n4. Provide actionable recommendations\n\nRespond in JSON format:\n\x7b\n    \"patterns_detected\": boolean,\n    \"pattern_description\": \"string\",\n    \"affected_clients\": [\"list of client names\"],\n    \"recommended_actions\": [\"list of actions\"],\n    \"escalation_needed\": boolean,\n    \"confidence\": \"HIGH|MEDIUM|LOW\"\n\x7d".toList

/-- Embedding of `analyze_patterns_with_bedrock`: build the prompt
(outside the `try`), call the classifier, parse its text; any failure of
the call (including reading the response body) is caught and converted
into a `patterns_detected: false` dictionary carrying the error. -/
def analyze_patterns_with_bedrock (investigations : List PRecord)
    (oracle : Str → Except Str Str) : JVal :=
  match oracle (build_analysis_prompt investigations) with
  | .error e =>
    .obj [("patterns_detected".toList, .bool false), ("error".toList, .str e)]
  | .ok text => parse_bedrock_response text

/-- Python `dict.get` over a parsed JSON object member list. -/
def lookupKey (fields : List (Str × JVal)) (k : Str) : Option JVal :=
  (fields.find? (fun p => p.1 = k)).map (fun p => p.2)

/-- Python truthiness of a JSON value, as used by
`if analysis.get('patterns_detected'):`. -/
def JVal.truthy : JVal → Bool
  | .null => false
  | .bool b => b
  | .num n => n != 0
  | .str s => !s.isEmpty
  | .arr l => !l.isEmpty
  | .obj f => !f.isEmpty

/-- Body of a successful handler response. -/
structure PBody where
  message : Str
  patterns_detected : Option JVal
  investigation_id : Option Str

/-- Observable result of one run of the pattern-detection `handler`. -/
structure PResult where
  bedrockCalled : Bool
  alertAttempted : Bool
  analysis : Option JVal
  outcome : Except Str PBody

/-- Embedding of the pattern-detection `handler`: validate the id
(Python truthiness), scan the trailing window, return the
insufficient-data body (which has no `patterns_detected` key) below
three records without calling the classifier; otherwise analyze, alert
when the parsed `patterns_detected` is truthy (the SNS publish failure
propagating), and return the completion body; a non-dictionary analysis
makes `analysis.get` raise `AttributeError`. -/
def pattern_handler (invId : Option Str) (records : List PRecord)
    (cutoff : Nat) (oracle : Str → Except Str Str)
    (snsO : Except Str Unit) : PResult :=
  match invId with
  | none =>
    { bedrockCalled := false, alertAttempted := false, analysis := none,
      outcome := .error "No investigation_id in event".toList }
  | some iid =>
    if iid.isEmpty then
      { bedrockCalled := false, alertAttempted := false, analysis := none,
        outcome := .error "No investigation_id in event".toList }
    else
      let recent := query_recent_investigations records cutoff
      if recent.length < 3 then
        { bedrockCalled := false, alertAttempted := false, analysis := none,
          outcome := .ok
            { message := "Insufficient data for pattern detection".toList,
              patterns_detected := none, investigation_id := none } }
      else
        let analysis := analyze_patterns_with_bedrock recent oracle
        match analysis with
        | .obj fs =>
          if ((lookupKey fs "patterns_detected".toList).getD .null).truthy then
            match snsO with
            | .error e =>
              { bedrockCalled := true, alertAttempted := true,
                analysis := some analysis, outcome := .error e }
            | .ok _ =>
              { bedrockCalled := true, alertAttempted := true,
                analysis := some analysis,
                outcome := .ok
                  { message := "Pattern analysis complete".toList,
                    patterns_detected := some
                      ((lookupKey fs "patterns_detected".toList).getD
                        (.bool false)),
                    investigation_id := some iid } }
          else
            { bedrockCalled := true, alertAttempted := false,
              analysis := some analysis,
              outcome := .ok
                { message := "Pattern analysis complete".toList,
                  patterns_detected := some
                    ((lookupKey fs "patterns_detected".toList).getD
                      (.bool false)),
                  investigation_id := some iid } }
        | _ =>
          { bedrockCalled := true, alertAttempted := false,
            analysis := some analysis,
            outcome := .error "AttributeError".toList }

end Pattern

namespace Pattern

/-- A stored investigation fixture at a given timestamp. -/
def recW (t : Nat) : PRecord :=
  { client_name := "acme".toList, severity := "HIGH".toList,
    root_cause_category := "network_connectivity".toList,
    resource_types := ["LAMBDA".toList], timestamp := t }

/-- Two recent records: below the correlation threshold. -/
def recsTwo : List PRecord := [recW 100, recW 200]

/-- Three recent records: at the correlation threshold. -/
def recsThree : List PRecord := [recW 100, recW 200, recW 300]

/-- A classifier oracle that would fail if consulted. -/
def oracleNever : Str → Except Str Str := fun _ => .error "never called".toList

end Pattern

set_option maxRecDepth 10000

/-- Sanity check: an input matching both the first and the fourth
category is assigned the first. -/
theorem categorize_first_match_example :
    Monitor.categorize_root_cause "Deployment TIMEOUT happened".toList
      = "network_connectivity".toList := by decide

/-- Sanity check: no keyword matched gives `unknown`. -/
theorem categorize_unknown_example :
    Monitor.categorize_root_cause "weird".toList = "unknown".toList := by
  decide

/-- Sanity check: the resource-type extraction example of the spec. -/
theorem extract_resource_types_example :
    Monitor.extract_resource_types
      ["arn:aws:lambda:us-east-1:111122223333:function:foo".toList]
      = ["LAMBDA".toList] := by decide

/-- Sanity check: the redaction example of the spec: the IP and the
password value are redacted. -/
theorem redact_example :
    Monitor.redact_sensitive_data
      "Connection timeout to database, IP 10.0.0.5, password: abc123".toList
      = "Connection timeout to database, IP REDACTED_IP, password: REDACTED".toList := by
  decide

/-- Sanity check: email redaction. -/
theorem redact_email_example :
    Monitor.redact_sensitive_data "mail bob@example.com now".toList
      = "mail REDACTED_EMAIL now".toList := by decide

/-- Sanity check: a four-digit first octet is not an IP match. -/
theorem redact_no_overlong_ip_example :
    Monitor.redact_sensitive_data "ip 1234.1.2.3 ok".toList
      = "ip 1234.1.2.3 ok".toList := by decide

/-- Sanity check: separator backtracking of the secret pattern. -/
theorem redact_secret_sep_example :
    Monitor.redact_sensitive_data "the key:= s3cr3t".toList
      = "the key: REDACTED".toList := by decide

namespace Monitor

/-! ## Lemmas about the poll layer -/

/-- A parsed investigation carries the log event timestamp as its
completion time. -/
theorem parseLogEvent_completed_at {e : LogEvent} {inv : Investigation}
    (h : parseLogEvent e = some inv) : inv.completed_at = e.timestamp := by
  unfold parseLogEvent at h
  cases hm : e.message with
  | none => rw [hm] at h; exact Option.noConfusion h
  | some m =>
    simp only [hm] at h
    by_cases hs : m.status = "COMPLETED".toList
    · rw [if_pos hs] at h
      cases h
      rfl
    · rw [if_neg hs] at h
      exact Option.noConfusion h

/-- Every investigation returned by the poll has `completed_at` at least
the `since` bound handed to `filter_log_events`. -/
theorem mem_getCompleted_since_le {since : Nat} {store : List LogEvent}
    {fault : Option SourceErr} {inv : Investigation}
    (h : inv ∈ get_completed_investigations since store fault) :
    since ≤ inv.completed_at := by
  unfold get_completed_investigations at h
  cases fault with
  | some f => simp at h
  | none =>
    simp only at h
    rcases List.mem_filterMap.mp h with ⟨e, he, hpe⟩
    rcases List.mem_filter.mp he with ⟨_, hts⟩
    rw [parseLogEvent_completed_at hpe]
    exact Nat.le_of_ble_eq_true (by simpa using hts)

/-- The fold computing `latestTime` never goes below its accumulator. -/
theorem le_foldl_max (l : List Investigation) (a : Nat) :
    a ≤ l.foldl (fun x i => max x i.completed_at) a := by
  induction l generalizing a with
  | nil => exact Nat.le_refl a
  | cons h t ih =>
    exact Nat.le_trans (Nat.le_max_left a h.completed_at)
      (ih (max a h.completed_at))

/-- Any member of the list bounds the max-fold from below, for any
accumulator. -/
theorem le_foldl_max_of_mem {invs : List Investigation} {inv : Investigation}
    (h : inv ∈ invs) :
    ∀ a, inv.completed_at ≤ invs.foldl (fun x i => max x i.completed_at) a := by
  induction invs with
  | nil => cases h
  | cons hd t ih =>
    intro a
    rcases List.mem_cons.mp h with rfl | hm
    · exact Nat.le_trans (Nat.le_max_right a inv.completed_at)
        (le_foldl_max t (max a inv.completed_at))
    · exact ih hm (max a hd.completed_at)

/-- Any member of a non-empty list bounds `latestTime` from below. -/
theorem le_latestTime_of_mem {invs : List Investigation} {inv : Investigation}
    (h : inv ∈ invs) : inv.completed_at ≤ latestTime invs :=
  le_foldl_max_of_mem h 0

/-- Every element of the processing loop output comes from processing
one investigation of the batch with its own publish outcome. -/
theorem mem_process_list {cfg : Config} {bus : Nat → BusResult}
    {invs : List Investigation} {k : Nat} {o : Except Str MEvent}
    (h : o ∈ process_list cfg bus k invs) :
    ∃ j inv, inv ∈ invs ∧ o = process_investigation cfg (bus j) inv := by
  induction invs generalizing k with
  | nil => cases h
  | cons hd t ih =>
    rcases List.mem_cons.mp h with rfl | hm
    · exact ⟨k, hd, List.mem_cons_self hd t, rfl⟩
    · rcases ih hm with ⟨j, inv, hmem, ho⟩
      exact ⟨j, inv, List.mem_cons_of_mem hd hmem, ho⟩

/-- Characterisation of a successful `format_investigation_event`. -/
theorem format_ok_iff {cfg : Config} {inv : Investigation} {ev : MEvent}
    {w : Bool} :
    format_investigation_event cfg inv = .ok (ev, w) ↔
      ev = build_event cfg inv ∧ eventSize (build_event cfg inv) ≤ 256000 ∧
        (w = decide (200000 < eventSize (build_event cfg inv))) := by
  simp only [format_investigation_event]
  by_cases hs : 256000 < eventSize (build_event cfg inv)
  · rw [if_pos hs]
    constructor
    · intro h
      exact Except.noConfusion h
    · rintro ⟨_, h2, _⟩
      exact absurd hs (Nat.not_lt.mpr h2)
  · rw [if_neg hs]
    constructor
    · intro h
      simp only [Except.ok.injEq, Prod.mk.injEq] at h
      exact ⟨h.1.symm, Nat.not_lt.mp hs, h.2.symm⟩
    · rintro ⟨rfl, _, rfl⟩
      rfl

/-- Characterisation of a failing `format_investigation_event`. -/
theorem format_error_iff {cfg : Config} {inv : Investigation} :
    (∃ e, format_investigation_event cfg inv = .error e) ↔
      256000 < eventSize (build_event cfg inv) := by
  simp only [format_investigation_event]
  by_cases hs : 256000 < eventSize (build_event cfg inv)
  · simp [if_pos hs, hs]
  · simp [if_neg hs, hs]

/-- A successfully processed investigation yields its built event. -/
theorem process_ok_format {cfg : Config} {busR : BusResult}
    {inv : Investigation} {ev : MEvent}
    (h : process_investigation cfg busR inv = .ok ev) :
    ∃ w, format_investigation_event cfg inv = .ok (ev, w) := by
  unfold process_investigation at h
  cases hf : format_investigation_event cfg inv with
  | error e => rw [hf] at h; exact Except.noConfusion h
  | ok p =>
    obtain ⟨ev0, w0⟩ := p
    rw [hf] at h
    cases hb : send_to_central_eventbridge busR with
    | error e => rw [hb] at h; exact Except.noConfusion h
    | ok u =>
      rw [hb] at h
      injection h with h1
      subst h1
      exact ⟨w0, rfl⟩

end Monitor

namespace Monitor

/-- Single-cycle monotonicity: a written watermark is at least the value
read at the start of the cycle. -/
theorem watermark_step_mono {cfg : Config} {s d : Nat} {store : List LogEvent}
    {fault : Option SourceErr} {bus : Nat → BusResult} {w : Nat}
    (h : (monitor_handler cfg (some s) d store fault bus).watermarkWrite = some w) :
    s ≤ w := by
  simp only [monitor_handler, Option.getD_some] at h
  cases hinvs : get_completed_investigations s store fault with
  | nil => rw [hinvs] at h; exact Option.noConfusion h
  | cons hd t =>
    rw [hinvs] at h
    simp only [Option.some.injEq] at h
    subst h
    exact Nat.le_trans
      (mem_getCompleted_since_le (hinvs ▸ List.mem_cons_self hd t))
      (le_latestTime_of_mem (List.mem_cons_self hd t))

/-- Elements of the processing loop output, positionally. -/
theorem process_list_getElem {cfg : Config} {bus : Nat → BusResult} :
    ∀ (invs : List Investigation) (k i : Nat) (h : i < invs.length),
      (process_list cfg bus k invs)[i]? =
        some (process_investigation cfg (bus (k + i)) invs[i]) := by
  intro invs
  induction invs with
  | nil => intro k i h; exact absurd h (Nat.not_lt_zero i)
  | cons hd t ih =>
    intro k i h
    cases i with
    | zero => simp [process_list]
    | succ n =>
      have hn : n < t.length := Nat.lt_of_succ_lt_succ h
      simp only [process_list, List.getElem?_cons_succ, List.getElem_cons_succ]
      rw [ih (k + 1) n hn]
      have : k + 1 + n = k + (n + 1) := by omega
      rw [this]

/-! ## Claim theorems about the investigation monitor -/

/-- C1 counterexample: a cycle that polls one investigation whose publish
fails (the bus reports a failed entry) forwards zero events, yet the
handler still writes the watermark, to that investigation's
`completed_at`; the claim that the watermark is written only when at
least one event was forwarded, and never past a failed investigation, is
false on the code. -/
theorem watermark_advances_past_failed_publish :
    (monitor_handler cfgW (some 1000) 0 storeW none busFail).processedCount = 0 ∧
    (monitor_handler cfgW (some 1000) 0 storeW none busFail).sent = [] ∧
    (monitor_handler cfgW (some 1000) 0 storeW none busFail).watermarkWrite
      = some 2000 := by decide

/-- C1 amended: the watermark is written exactly when the poll returned a
non-empty batch, and it is written to the maximum `completed_at` over
all polled investigations of the cycle, regardless of the per-item
formatting and publish outcomes. -/
theorem watermark_written_iff_poll_nonempty :
    ∀ (cfg : Config) (sp : Option Nat) (d : Nat) (store : List LogEvent)
      (fault : Option SourceErr) (bus : Nat → BusResult),
      (get_completed_investigations (sp.getD d) store fault = [] →
        (monitor_handler cfg sp d store fault bus).watermarkWrite = none) ∧
      (∀ hd t, get_completed_investigations (sp.getD d) store fault = hd :: t →
        (monitor_handler cfg sp d store fault bus).watermarkWrite
          = some (latestTime (hd :: t))) := by
  intro cfg sp d store fault bus
  constructor
  · intro h
    simp [monitor_handler, h]
  · intro hd t h
    simp [monitor_handler, h]

/-- C1 amended, witness at the counterexample input. -/
theorem watermark_written_iff_poll_nonempty_witness :
    (monitor_handler cfgW (some 1000) 0 storeW none busFail).watermarkWrite
      = some (latestTime [invW]) :=
  (watermark_written_iff_poll_nonempty cfgW (some 1000) 0 storeW none
    busFail).2 invW [] (by decide)

/-- C3 counterexample: when the log retrieval raises a generic fault, the
fault is swallowed inside `get_completed_investigations` and the
invocation succeeds with a no-new-investigations response instead of
failing; the claim that non-missing-log-group faults propagate and fail
the invocation is false on the code. -/
theorem poll_fault_swallowed :
    (monitor_handler cfgW (some 1000) 0 storeW
        (some (SourceErr.other "boom".toList)) busOk).response
      = .ok "No new investigations".toList ∧
    get_completed_investigations 1000 storeW none ≠ [] := by decide

/-- C3 amended: a missing log group is treated as a normal empty result,
and so is every other retrieval fault: both are caught and logged inside
the poll layer, the invocation succeeds with a no-new-investigations
response, and the watermark is not written. -/
theorem poll_faults_yield_empty :
    ∀ (cfg : Config) (sp : Option Nat) (d : Nat) (store : List LogEvent)
      (f : SourceErr) (bus : Nat → BusResult),
      get_completed_investigations (sp.getD d) store (some f) = [] ∧
      (monitor_handler cfg sp d store (some f) bus).response
        = .ok "No new investigations".toList ∧
      (monitor_handler cfg sp d store (some f) bus).watermarkWrite = none := by
  intro cfg sp d store f bus
  refine ⟨rfl, ?_, ?_⟩ <;> simp [monitor_handler, get_completed_investigations]

/-- C4: watermark monotonicity.  A value written by a cycle is at least
the watermark read at the start of that cycle, and across any sequence
of cycles the stored watermark never decreases. -/
theorem watermark_monotonic :
    (∀ (cfg : Config) (s d : Nat) (store : List LogEvent)
        (fault : Option SourceErr) (bus : Nat → BusResult) (w : Nat),
      (monitor_handler cfg (some s) d store fault bus).watermarkWrite = some w →
        s ≤ w) ∧
    (∀ (cfg : Config) (d s : Nat) (cycles : List CycleInput),
      s ≤ runCycles cfg d s cycles) := by
  constructor
  · intro cfg s d store fault bus w h
    exact watermark_step_mono h
  · intro cfg d s cycles
    induction cycles generalizing s with
    | nil => exact Nat.le_refl s
    | cons c rest ih =>
      refine Nat.le_trans ?_ (ih _)
      cases hw : (monitor_handler cfg (some s) d c.store c.fault
          c.bus).watermarkWrite with
      | none => simp
      | some w => simpa [hw] using watermark_step_mono hw

/-- C4 witness: a concrete successful cycle writes 2000 from a read
watermark of 1000. -/
theorem watermark_monotonic_witness :
    (monitor_handler cfgW (some 1000) 0 storeW none busOk).watermarkWrite
      = some 2000 ∧ 1000 ≤ 2000 :=
  ⟨by decide, watermark_monotonic.1 cfgW 1000 0 storeW none busOk 2000 (by decide)⟩

/-- C7 counterexample: `filter_log_events` is called with an inclusive
`startTime`, so an event whose timestamp equals the watermark is
returned by the poll with `completed_at` equal to `since`, violating the
strict `completed_at > since` contract. -/
theorem poll_includes_boundary_timestamp :
    get_completed_investigations 2000 storeW none = [invW] ∧
    invW.completed_at = 2000 ∧ ¬ (2000 < invW.completed_at) := by decide

/-- C7 amended: every investigation returned by a poll has `completed_at`
greater than or equal to the `since` bound (inclusive); an event with a
timestamp strictly before the watermark is never included. -/
theorem poll_since_inclusive_bound :
    ∀ (since : Nat) (store : List LogEvent) (inv : Investigation),
      inv ∈ get_completed_investigations since store none →
        since ≤ inv.completed_at :=
  fun _ _ _ h => mem_getCompleted_since_le h

/-- C7 amended, witness at the boundary input. -/
theorem poll_since_inclusive_bound_witness :
    invW ∈ get_completed_investigations 2000 storeW none ∧
      2000 ≤ invW.completed_at :=
  ⟨by decide, poll_since_inclusive_bound 2000 storeW invW (by decide)⟩

/-- C5: size-cap enforcement.  Every event whose publish was attempted
(and in particular every transmitted event) measures at most 256 000
bytes; formatting fails exactly when the built event exceeds 256 000
bytes, and an over-200 000-byte event that passes the cap is only
flagged with the warning; each investigation of a batch is processed
independently of the others, so an oversized one is dropped alone. -/
theorem size_cap_enforced :
    (∀ (cfg : Config) (sp : Option Nat) (d : Nat) (store : List LogEvent)
        (fault : Option SourceErr) (bus : Nat → BusResult) (ev : MEvent),
      ev ∈ (monitor_handler cfg sp d store fault bus).sent →
        eventSize ev ≤ 256000) ∧
    (∀ (cfg : Config) (inv : Investigation) (ev : MEvent) (w : Bool),
      format_investigation_event cfg inv = .ok (ev, w) →
        eventSize ev ≤ 256000 ∧ (w = true ↔ 200000 < eventSize ev)) ∧
    (∀ (cfg : Config) (inv : Investigation),
      (∃ e, format_investigation_event cfg inv = .error e) ↔
        256000 < eventSize (build_event cfg inv)) ∧
    (∀ (cfg : Config) (bus : Nat → BusResult) (invs : List Investigation)
        (i : Nat) (h : i < invs.length),
      (process_list cfg bus 0 invs)[i]? =
        some (process_investigation cfg (bus i) invs[i])) := by
  have hok : ∀ (cfg : Config) (inv : Investigation) (ev : MEvent) (w : Bool),
      format_investigation_event cfg inv = .ok (ev, w) →
        eventSize ev ≤ 256000 ∧ (w = true ↔ 200000 < eventSize ev) := by
    intro cfg inv ev w h
    rcases format_ok_iff.mp h with ⟨rfl, hsz, hw⟩
    exact ⟨hsz, by rw [hw]; simp⟩
  refine ⟨?_, hok, ?_, ?_⟩
  · intro cfg sp d store fault bus ev hmem
    simp only [monitor_handler] at hmem
    cases hinvs : get_completed_investigations (sp.getD d) store fault with
    | nil => rw [hinvs] at hmem; cases hmem
    | cons hd t =>
      rw [hinvs] at hmem
      simp only [List.mem_filterMap] at hmem
      rcases hmem with ⟨o, ho, hoo⟩
      rcases mem_process_list ho with ⟨j, inv, _, rfl⟩
      cases hp : process_investigation cfg (bus j) inv with
      | error e => rw [hp] at hoo; exact Option.noConfusion hoo
      | ok ev2 =>
        rw [hp] at hoo
        simp only [Except.toOption] at hoo
        cases hoo
        rcases process_ok_format hp with ⟨w, hf⟩
        exact (hok cfg inv _ _ hf).1
  · intro cfg inv
    exact format_error_iff
  · intro cfg bus invs i h
    have := @process_list_getElem cfg bus invs 0 i h
    simpa using this

/-- C5 witness: a concrete formatted event, accepted by the cap with the
warning flag off. -/
theorem size_cap_enforced_witness :
    format_investigation_event cfgW invW = .ok (build_event cfgW invW, false) ∧
      eventSize (build_event cfgW invW) ≤ 256000 :=
  ⟨by decide,
    (size_cap_enforced.2.1 cfgW invW (build_event cfgW invW) false (by decide)).1⟩


/-- C9: root-cause categorization is a pure function of the text and
agrees with the ordered first-match evaluation of the fixed
five-category keyword table; an input matching an earlier and a later
category gets the earlier one, and an input matching nothing gets
`unknown`. -/
theorem categorize_matches_spec_table :
    (∀ s, categorize_root_cause s = spec_categorize s) ∧
    categorize_root_cause "Deployment timeout".toList
      = "network_connectivity".toList ∧
    categorize_root_cause "zzz".toList = "unknown".toList := by
  refine ⟨fun s => ?_, by decide, by decide⟩
  cases h1 : ["connection".toList, "timeout".toList, "network".toList].any
      (fun k => containsSub k (lowerStr s)) <;>
  cases h2 : ["memory".toList, "cpu".toList, "disk".toList,
      "capacity".toList].any (fun k => containsSub k (lowerStr s)) <;>
  cases h3 : ["permission".toList, "access".toList, "denied".toList,
      "unauthorized".toList].any (fun k => containsSub k (lowerStr s)) <;>
  cases h4 : ["deployment".toList, "version".toList, "rollout".toList].any
      (fun k => containsSub k (lowerStr s)) <;>
  cases h5 : ["dependency".toList, "service".toList, "downstream".toList].any
      (fun k => containsSub k (lowerStr s)) <;>
  simp only [categorize_root_cause, spec_categorize, specCategoryTable,
    List.find?, h1, h2, h3, h4, h5] <;>
  simp

end Monitor

namespace Routing

/-- C2 counterexample: for a CRITICAL event with both secrets configured
and paging and ticketing succeeding, a failure of the SNS broadcast
alert propagates out of the handler and fails the whole event, because
`send_sns_alert` has no exception handler; the claim that every
notification-channel failure is caught and only a persist failure is
fatal is false on the code. -/
theorem sns_failure_aborts_event :
    (routing_handler rcfgW dW (.ok ()) (.ok ()) (.ok ())
        (.error "boom".toList)).outcome = .error "boom".toList ∧
    (routing_handler rcfgW dW (.ok ()) (.ok ()) (.ok ())
        (.error "boom".toList)).snsAttempted = true ∧
    (routing_handler rcfgW dW (.ok ()) (.ok ()) (.ok ())
        (.error "boom".toList)).storeAttempted = true := by decide

/-- C2 amended: failures of the paging and ticketing channels are caught
inside their functions and change nothing observable (actions, outcome,
which channels are attempted) — they neither abort the event nor skip
later channels; but a failure of the persist step or of the SNS
broadcast alert propagates and fails the whole event. -/
theorem routing_best_effort :
    (∀ (cfg : RConfig) (d : RDetail) (storeO pageO jiraO snsO : Except Str Unit),
      (routing_handler cfg d storeO pageO jiraO snsO).actions
        = (routing_handler cfg d storeO (.ok ()) (.ok ()) snsO).actions ∧
      (routing_handler cfg d storeO pageO jiraO snsO).outcome
        = (routing_handler cfg d storeO (.ok ()) (.ok ()) snsO).outcome ∧
      (routing_handler cfg d storeO pageO jiraO snsO).pageAttempted
        = (routing_handler cfg d storeO (.ok ()) (.ok ()) snsO).pageAttempted ∧
      (routing_handler cfg d storeO pageO jiraO snsO).jiraAttempted
        = (routing_handler cfg d storeO (.ok ()) (.ok ()) snsO).jiraAttempted ∧
      (routing_handler cfg d storeO pageO jiraO snsO).snsAttempted
        = (routing_handler cfg d storeO (.ok ()) (.ok ()) snsO).snsAttempted) ∧
    (∀ (cfg : RConfig) (d : RDetail) (storeO pageO jiraO : Except Str Unit)
        (e : Str),
      (routing_handler cfg d storeO pageO jiraO (.error e)).snsAttempted = true →
        (routing_handler cfg d storeO pageO jiraO (.error e)).outcome
          = .error e) ∧
    (∀ (cfg : RConfig) (d : RDetail) (pageO jiraO snsO : Except Str Unit)
        (e : Str) (iid sev cn : Str),
      d.investigation_id = some iid → iid ≠ [] → d.severity = some sev →
        d.client_name = some cn →
        (routing_handler cfg d (.error e) pageO jiraO snsO).outcome
          = .error e) := by
  refine ⟨?_, ?_, ?_⟩
  · intro cfg d storeO pageO jiraO snsO
    unfold routing_handler
    rcases d.investigation_id with _ | iid
    · refine ⟨?_, ?_, ?_, ?_, ?_⟩ <;> trivial
    · simp only []
      split
      · refine ⟨?_, ?_, ?_, ?_, ?_⟩ <;> trivial
      · rcases hst : store_investigation d storeO with e | u <;> simp only []
        · refine ⟨?_, ?_, ?_, ?_, ?_⟩ <;> trivial
        · split
          · rcases snsO with e | u2 <;>
              refine ⟨?_, ?_, ?_, ?_, ?_⟩ <;> trivial
          · split
            · refine ⟨?_, ?_, ?_, ?_, ?_⟩ <;> trivial
            · refine ⟨?_, ?_, ?_, ?_, ?_⟩ <;> trivial
  · intro cfg d storeO pageO jiraO e
    unfold routing_handler
    rcases d.investigation_id with _ | iid
    · simp
    · simp only []
      split
      · simp
      · rcases hst : store_investigation d storeO with e2 | u <;> simp only []
        · simp
        · split
          · simp [send_sns_alert]
          · split <;> simp
  · intro cfg d pageO jiraO snsO e iid sev cn hid hne hsev hcn
    have hie : iid.isEmpty = false := by
      cases iid with
      | nil => exact absurd rfl hne
      | cons c t => rfl
    unfold routing_handler
    rw [hid]
    simp only [hie, Bool.false_eq_true, if_false]
    have hst : store_investigation d (.error e) = .error e := by
      unfold store_investigation
      rw [hsev, hcn]
    rw [hst]

/-- C2 amended, witness: a paging failure leaves the outcome of the
concrete CRITICAL event unchanged. -/
theorem routing_best_effort_witness :
    (routing_handler rcfgW dW (.ok ()) (.error "page down".toList) (.ok ())
        (.ok ())).outcome
      = (routing_handler rcfgW dW (.ok ()) (.ok ()) (.ok ()) (.ok ())).outcome :=
  (routing_best_effort.1 rcfgW dW (.ok ()) (.error "page down".toList)
    (.ok ()) (.ok ())).2.1

end Routing

namespace Routing

/-- C10: for a CRITICAL or HIGH event that persists successfully, the
paging channel is attempted exactly when the PagerDuty secret name is
non-empty and the ticketing channel exactly when the Jira secret name is
non-empty; with an empty secret name the channel is silently skipped and
leaves no entry in the actions list, while the persist and SNS broadcast
steps still run. -/
theorem channel_gating :
    ∀ (cfg : RConfig) (d : RDetail) (pageO jiraO snsO : Except Str Unit)
      (iid sev cn : Str),
      d.investigation_id = some iid → iid ≠ [] → d.severity = some sev →
      d.client_name = some cn →
      (sev = "CRITICAL".toList ∨ sev = "HIGH".toList) →
      (routing_handler cfg d (.ok ()) pageO jiraO snsO).storeAttempted = true ∧
      (routing_handler cfg d (.ok ()) pageO jiraO snsO).snsAttempted = true ∧
      (routing_handler cfg d (.ok ()) pageO jiraO snsO).pageAttempted
        = !cfg.pagerdutySecretName.isEmpty ∧
      (routing_handler cfg d (.ok ()) pageO jiraO snsO).jiraAttempted
        = !cfg.jiraSecretName.isEmpty ∧
      (cfg.pagerdutySecretName = [] →
        (routing_handler cfg d (.ok ()) pageO jiraO snsO).pageAttempted = false ∧
        ¬ "paged_engineer".toList
            ∈ (routing_handler cfg d (.ok ()) pageO jiraO snsO).actions) ∧
      (cfg.jiraSecretName = [] →
        (routing_handler cfg d (.ok ()) pageO jiraO snsO).jiraAttempted = false ∧
        ¬ "created_ticket".toList
            ∈ (routing_handler cfg d (.ok ()) pageO jiraO snsO).actions) := by
  intro cfg d pageO jiraO snsO iid sev cn hid hne hsev hcn hsevc
  have hie : iid.isEmpty = false := by
    cases iid with
    | nil => exact absurd rfl hne
    | cons c t => rfl
  have hst : store_investigation d (.ok ()) = .ok () := by
    unfold store_investigation
    rw [hsev, hcn]
  have hcond : d.severity.getD "MEDIUM".toList = "CRITICAL".toList ∨
      d.severity.getD "MEDIUM".toList = "HIGH".toList := by
    rw [hsev]
    exact hsevc
  unfold routing_handler
  rw [hid]
  simp only [hie, Bool.false_eq_true, if_false, hst]
  rw [if_pos hcond]
  rcases snsO with e | u <;>
    cases hpd : cfg.pagerdutySecretName.isEmpty <;>
    cases hjr : cfg.jiraSecretName.isEmpty <;>
    simp_all [send_sns_alert, List.isEmpty_iff]

/-- C10 witness: with both secret names empty, the concrete CRITICAL
event is persisted and broadcast but neither paged nor ticketed. -/
theorem channel_gating_witness :
    (routing_handler rcfgNone dW (.ok ()) (.ok ()) (.ok ())
        (.ok ())).storeAttempted = true ∧
    (routing_handler rcfgNone dW (.ok ()) (.ok ()) (.ok ())
        (.ok ())).snsAttempted = true ∧
    (routing_handler rcfgNone dW (.ok ()) (.ok ()) (.ok ())
        (.ok ())).pageAttempted = false ∧
    ¬ "paged_engineer".toList
        ∈ (routing_handler rcfgNone dW (.ok ()) (.ok ()) (.ok ())
            (.ok ())).actions := by
  have h := channel_gating rcfgNone dW (.ok ()) (.ok ()) (.ok ())
    "inv-1".toList "CRITICAL".toList "acme".toList (by decide) (by decide)
    (by decide) (by decide) (by decide)
  exact ⟨h.1, h.2.1, (h.2.2.2.2.1 rfl).1, (h.2.2.2.2.1 rfl).2⟩

end Routing

namespace Pattern

/-- Helper: a failing classifier call makes `analyze_patterns_with_bedrock`
return the error dictionary with `patterns_detected` false. -/
theorem analyze_error {invs : List PRecord} {oracle : Str → Except Str Str}
    {e : Str} (h : oracle (build_analysis_prompt invs) = .error e) :
    analyze_patterns_with_bedrock invs oracle
      = .obj [("patterns_detected".toList, .bool false),
          ("error".toList, .str e)] := by
  unfold analyze_patterns_with_bedrock
  rw [h]

/-- Helper: an unparsable classifier response makes
`parse_bedrock_response` return the parse-error dictionary. -/
theorem parse_fail_dict {text : Str}
    (h : json_loads (cleanResponse text) = none) :
    parse_bedrock_response text = parseErrorDict := by
  unfold parse_bedrock_response
  rw [h]

/-- Helper: a parse failure after a successful call makes
`analyze_patterns_with_bedrock` return the parse-error dictionary. -/
theorem analyze_parse_fail {invs : List PRecord}
    {oracle : Str → Except Str Str} {text : Str}
    (hok : oracle (build_analysis_prompt invs) = .ok text)
    (h : json_loads (cleanResponse text) = none) :
    analyze_patterns_with_bedrock invs oracle = parseErrorDict := by
  unfold analyze_patterns_with_bedrock
  rw [hok]
  exact parse_fail_dict h

/-- Helper: a response that `json.loads` accepts is returned by
`parse_bedrock_response` unchanged, whatever its shape. -/
theorem parse_ok_val {text : Str} {v : JVal}
    (h : json_loads (cleanResponse text) = some v) :
    parse_bedrock_response text = v := by
  unfold parse_bedrock_response
  rw [h]

/-- Helper: a successful call whose response parses to `v` makes
`analyze_patterns_with_bedrock` return `v` itself. -/
theorem analyze_parsed_val {invs : List PRecord}
    {oracle : Str → Except Str Str} {text : Str} {v : JVal}
    (hok : oracle (build_analysis_prompt invs) = .ok text)
    (h : json_loads (cleanResponse text) = some v) :
    analyze_patterns_with_bedrock invs oracle = v := by
  unfold analyze_patterns_with_bedrock
  rw [hok]
  exact parse_ok_val h

/-- C6 counterexample: with exactly two records in the window, the
handler makes no classifier call but returns the insufficient-data body,
which carries no `patterns_detected` key at all rather than a false
one. -/
theorem insufficient_data_has_no_flag :
    (pattern_handler (some "inv-1".toList) recsTwo 0 oracleNever
        (.ok ())).bedrockCalled = false ∧
    (pattern_handler (some "inv-1".toList) recsTwo 0 oracleNever
        (.ok ())).outcome
      = .ok { message := "Insufficient data for pattern detection".toList,
              patterns_detected := none, investigation_id := none } ∧
    ∀ body, (pattern_handler (some "inv-1".toList) recsTwo 0 oracleNever
        (.ok ())).outcome = .ok body →
      body.patterns_detected ≠ some (JVal.bool false) := by
  refine ⟨rfl, rfl, ?_⟩
  intro body h
  have hval : (pattern_handler (some "inv-1".toList) recsTwo 0 oracleNever
      (.ok ())).outcome
      = Except.ok { message := "Insufficient data for pattern detection".toList,
                    patterns_detected := none, investigation_id := none } := rfl
  have h2 := h.symm.trans hval
  rw [Except.ok.inj h2]
  exact fun hc => Option.noConfusion hc

/-- C6 amended: with fewer than three records in the trailing window the
handler returns the insufficient-data body (with no `patterns_detected`
field) and never calls the classifier; with three or more it always
invokes the classifier. -/
theorem correlation_threshold :
    ∀ (records : List PRecord) (cutoff : Nat)
      (oracle : Str → Except Str Str) (snsO : Except Str Unit) (iid : Str),
      iid ≠ [] →
      ((query_recent_investigations records cutoff).length < 3 →
        (pattern_handler (some iid) records cutoff oracle
            snsO).bedrockCalled = false ∧
        (pattern_handler (some iid) records cutoff oracle snsO).outcome
          = .ok { message := "Insufficient data for pattern detection".toList,
                  patterns_detected := none, investigation_id := none }) ∧
      (3 ≤ (query_recent_investigations records cutoff).length →
        (pattern_handler (some iid) records cutoff oracle
            snsO).bedrockCalled = true) := by
  intro records cutoff oracle snsO iid hne
  have hie : iid.isEmpty = false := by
    cases iid with
    | nil => exact absurd rfl hne
    | cons a b => rfl
  constructor
  · intro hlt
    unfold pattern_handler
    simp only [hie, Bool.false_eq_true, if_false]
    rw [if_pos hlt]
    exact ⟨rfl, rfl⟩
  · intro hge
    have hnlt := Nat.not_lt.mpr hge
    unfold pattern_handler
    simp only [hie, Bool.false_eq_true, if_false]
    rw [if_neg hnlt]
    cases hA : analyze_patterns_with_bedrock
        (query_recent_investigations records cutoff) oracle <;>
      (simp only []; try rfl)
    split
    · cases snsO <;> rfl
    · rfl

/-- C6 amended, witness at the two-record input. -/
theorem correlation_threshold_witness :
    (pattern_handler (some "inv-1".toList) recsTwo 0 oracleNever
        (.ok ())).bedrockCalled = false :=
  ((correlation_threshold recsTwo 0 oracleNever (.ok ()) "inv-1".toList
    (by decide)).1 (by decide)).1

/-- C8 counterexample: a classifier response of `42` is valid JSON, so
`json.loads` succeeds and `parse_bedrock_response` returns the number
unchanged; the handler then calls `analysis.get` on a non-dictionary,
raising `AttributeError`, and the correlation pass crashes — a
shape-level parse failure that is propagated as a crash, falsifying the
claim that no parse failure ever is. -/
theorem nonobject_response_crashes_correlation :
    json_loads (cleanResponse "42".toList) = some (JVal.num 42) ∧
    (pattern_handler (some "inv-1".toList) recsThree 0
        (fun _ => .ok "42".toList) (.ok ())).bedrockCalled = true ∧
    (pattern_handler (some "inv-1".toList) recsThree 0
        (fun _ => .ok "42".toList) (.ok ())).outcome
      = .error "AttributeError".toList :=
  ⟨rfl, rfl, rfl⟩

/-- C8 amended: every failure of the classifier call is caught and
converted into a `patterns_detected: false` dictionary carrying the
error, and so is every response that `json.loads` rejects; in both cases
the handler completes normally, sends no alert, and reports
`patterns_detected` false in its body.  However, a response that is
valid JSON while not a JSON object escapes this handling: it is returned
by the parse step and the handler's `analysis.get` then raises
`AttributeError`, crashing the correlation pass. -/
theorem classifier_failure_degrades :
    (∀ (invs : List PRecord) (oracle : Str → Except Str Str) (e : Str),
      oracle (build_analysis_prompt invs) = .error e →
        analyze_patterns_with_bedrock invs oracle
          = .obj [("patterns_detected".toList, .bool false),
              ("error".toList, .str e)]) ∧
    (∀ text : Str, json_loads (cleanResponse text) = none →
        parse_bedrock_response text = parseErrorDict) ∧
    (∀ (records : List PRecord) (cutoff : Nat)
        (oracle : Str → Except Str Str) (snsO : Except Str Unit)
        (iid e : Str), iid ≠ [] →
      3 ≤ (query_recent_investigations records cutoff).length →
      oracle (build_analysis_prompt
          (query_recent_investigations records cutoff)) = .error e →
        (pattern_handler (some iid) records cutoff oracle
            snsO).alertAttempted = false ∧
        (pattern_handler (some iid) records cutoff oracle snsO).outcome
          = .ok { message := "Pattern analysis complete".toList,
                  patterns_detected := some (JVal.bool false),
                  investigation_id := some iid }) ∧
    (∀ (records : List PRecord) (cutoff : Nat)
        (oracle : Str → Except Str Str) (snsO : Except Str Unit)
        (iid text : Str), iid ≠ [] →
      3 ≤ (query_recent_investigations records cutoff).length →
      oracle (build_analysis_prompt
          (query_recent_investigations records cutoff)) = .ok text →
      json_loads (cleanResponse text) = none →
        (pattern_handler (some iid) records cutoff oracle
            snsO).alertAttempted = false ∧
        (pattern_handler (some iid) records cutoff oracle snsO).outcome
          = .ok { message := "Pattern analysis complete".toList,
                  patterns_detected := some (JVal.bool false),
                  investigation_id := some iid }) ∧
    (∀ (records : List PRecord) (cutoff : Nat)
        (oracle : Str → Except Str Str) (snsO : Except Str Unit)
        (iid text : Str) (v : JVal), iid ≠ [] →
      3 ≤ (query_recent_investigations records cutoff).length →
      oracle (build_analysis_prompt
          (query_recent_investigations records cutoff)) = .ok text →
      json_loads (cleanResponse text) = some v →
      (∀ fs, v ≠ JVal.obj fs) →
        (pattern_handler (some iid) records cutoff oracle snsO).outcome
          = .error "AttributeError".toList) := by
  refine ⟨fun invs oracle e h => analyze_error h,
    fun text h => parse_fail_dict h, ?_, ?_, ?_⟩
  · intro records cutoff oracle snsO iid e hne hge hOr
    have hie : iid.isEmpty = false := by
      cases iid with
      | nil => exact absurd rfl hne
      | cons a b => rfl
    have hnlt := Nat.not_lt.mpr hge
    have hA := analyze_error hOr
    unfold pattern_handler
    simp only [hie, Bool.false_eq_true, if_false]
    rw [if_neg hnlt, hA]
    exact ⟨rfl, rfl⟩
  · intro records cutoff oracle snsO iid text hne hge hOk hParse
    have hie : iid.isEmpty = false := by
      cases iid with
      | nil => exact absurd rfl hne
      | cons a b => rfl
    have hnlt := Nat.not_lt.mpr hge
    have hA := analyze_parse_fail hOk hParse
    unfold pattern_handler
    simp only [hie, Bool.false_eq_true, if_false]
    rw [if_neg hnlt, hA]
    exact ⟨rfl, rfl⟩
  · intro records cutoff oracle snsO iid text v hne hge hOk hParse hnobj
    have hie : iid.isEmpty = false := by
      cases iid with
      | nil => exact absurd rfl hne
      | cons a b => rfl
    have hnlt := Nat.not_lt.mpr hge
    have hA := analyze_parsed_val hOk hParse
    unfold pattern_handler
    simp only [hie, Bool.false_eq_true, if_false]
    rw [if_neg hnlt, hA]
    cases v with
    | null => rfl
    | bool b => rfl
    | num n => rfl
    | str s => rfl
    | arr l => rfl
    | obj fs => exact absurd rfl (hnobj fs)

/-- C8 witness: a quota failure at the three-record input degrades to a
no-pattern result with no alert. -/
theorem classifier_failure_degrades_witness :
    (pattern_handler (some "inv-1".toList) recsThree 0
        (fun _ => .error "quota".toList) (.ok ())).alertAttempted = false ∧
    (pattern_handler (some "inv-1".toList) recsThree 0
        (fun _ => .error "quota".toList) (.ok ())).outcome
      = .ok { message := "Pattern analysis complete".toList,
              patterns_detected := some (JVal.bool false),
              investigation_id := some "inv-1".toList } :=
  classifier_failure_degrades.2.2.1 recsThree 0
    (fun _ => .error "quota".toList) (.ok ()) "inv-1".toList "quota".toList
    (by decide) (by decide) rfl

end Pattern
